import Mathlib

/-!
Verification of the koda-signal-ch signaling relay (src/main.rs, src/protocol.rs).

Shallow embedding:
* `Json` is an AST for serde_json values (arbitrary-precision integers stand in
  for JSON numbers; the opaque `data` payload is passed through untouched, so
  the numeric representation is never interpreted by the code under study).
* `Uuid` is the canonical string form of a `uuid::Uuid`.  The uuid crate is an
  external dependency; its serde implementation renders a `Uuid` as its
  canonical string and parses it back, so we model that external round-trip as
  the identity on the string form.
* `KodaSignal` mirrors the enum of src/protocol.rs; `encode`/`decode` embed the
  serde derive with `tag = "type", content = "payload",
  rename_all = "SCREAMING_SNAKE_CASE"` at the level of JSON values (the final
  text rendering of serde_json is external and injective).
* The jsonwebtoken crate is external; tokens are modelled as strings of the
  shape `sub.exp.sig` with `sig` produced by a keyed signing function
  (`signClaims`, standing in for HMAC-SHA256), and `verifyToken` models
  `jsonwebtoken::decode::<Claims>` with `Validation::default()` (signature
  check plus expiry check; the default 60s leeway is abstracted into the
  single `now` parameter).
* `handleMessage` is the `match signal { .. }` body of `handle_socket`
  (src/main.rs lines 85-132), `handleFrame` adds the Text-frame filter and the
  MALFORMATTED_JSON arm (lines 82-140), `runFrames` is the receive loop, and
  `teardown` is the cleanup at lines 143-147.  Sends on an mpsc channel are
  modelled as an output log of (channel id, message) pairs; the code wraps each
  message as `Message::Text(serde_json::to_string(..))`, a faithful injective
  image of the `KodaSignal` value recorded here.
-/

/-- Canonical string form of a `uuid::Uuid` (external type, kept opaque). -/
abbrev Uuid := String

/-- Identifier of one connection's outbound mpsc channel (`tx` in the code). -/
abbrev ChanId := Nat

/-- serde_json::Value. -/
inductive Json where
  | null : Json
  | bool : Bool → Json
  | num : Int → Json
  | str : String → Json
  | arr : List Json → Json
  | obj : List (String × Json) → Json

/-- The protocol enum of src/protocol.rs. -/
inductive KodaSignal where
  | identify (token : String)
  | signal (targetId : Uuid) (senderId : Option Uuid) (data : Json)
  | authenticated (userId : Uuid)
  | peerOffline (peerId : Uuid)
  | error (message : String)

/-- First-match key lookup in a JSON object's field list. -/
def jLookup (fields : List (String × Json)) (key : String) : Option Json :=
  match fields with
  | [] => none
  | (k, v) :: rest => if k = key then some v else jLookup rest key

/-- serde rendering of an `Option<Uuid>` field value. -/
def encodeOptUuid : Option Uuid → Json
  | none => .null
  | some u => .str u

/-- serde serialization of `KodaSignal`: adjacently tagged
(`tag = "type", content = "payload"`), variant names in SCREAMING_SNAKE_CASE,
field names as declared. -/
def encode : KodaSignal → Json
  | .identify token =>
      .obj [("type", .str "IDENTIFY"), ("payload", .obj [("token", .str token)])]
  | .signal targetId senderId data =>
      .obj [("type", .str "SIGNAL"),
            ("payload", .obj [("target_id", .str targetId),
                              ("sender_id", encodeOptUuid senderId),
                              ("data", data)])]
  | .authenticated userId =>
      .obj [("type", .str "AUTHENTICATED"), ("payload", .obj [("user_id", .str userId)])]
  | .peerOffline peerId =>
      .obj [("type", .str "PEER_OFFLINE"), ("payload", .obj [("peer_id", .str peerId)])]
  | .error message =>
      .obj [("type", .str "ERROR"), ("payload", .obj [("message", .str message)])]

/-- Deserializing a `Uuid` field: the external uuid crate accepts the canonical
string form (modelled as any string, since `Uuid` is kept in string form). -/
def decodeUuid : Json → Option Uuid
  | .str s => some s
  | _ => none

/-- Deserializing an `Option<Uuid>` field: serde maps an absent field and a
`null` value to `None`, and a uuid string to `Some`. -/
def decodeOptUuid : Option Json → Option (Option Uuid)
  | none => some none
  | some .null => some none
  | some (.str s) => some (some s)
  | some _ => none

/-- Deserializing a required `String` field. -/
def decodeStrField : Option Json → Option String
  | some (.str s) => some s
  | _ => none

/-- Deserializing a required `Uuid` field. -/
def decodeUuidField : Option Json → Option Uuid
  | some j => decodeUuid j
  | none => none

/-- serde deserialization of `KodaSignal` (the `serde_json::from_str` call in
src/main.rs, at the level of parsed JSON values): expects an object holding a
string `type` tag and an object `payload`, then the fields of the named
variant. -/
def decode (j : Json) : Option KodaSignal :=
  match j with
  | .obj fields =>
    match jLookup fields "type", jLookup fields "payload" with
    | some (.str tag), some (.obj payload) =>
      if tag = "IDENTIFY" then
        match decodeStrField (jLookup payload "token") with
        | some token => some (.identify token)
        | none => none
      else if tag = "SIGNAL" then
        match decodeUuidField (jLookup payload "target_id"),
              decodeOptUuid (jLookup payload "sender_id"),
              jLookup payload "data" with
        | some targetId, some senderId, some data =>
            some (.signal targetId senderId data)
        | _, _, _ => none
      else if tag = "AUTHENTICATED" then
        match decodeUuidField (jLookup payload "user_id") with
        | some userId => some (.authenticated userId)
        | none => none
      else if tag = "PEER_OFFLINE" then
        match decodeUuidField (jLookup payload "peer_id") with
        | some peerId => some (.peerOffline peerId)
        | none => none
      else if tag = "ERROR" then
        match decodeStrField (jLookup payload "message") with
        | some message => some (.error message)
        | none => none
      else none
    | _, _ => none
  | _ => none

/-! ## Peer registry

`DashMap<Uuid, UnboundedSender<Message>>` modelled as an association list with
at most one entry per key; `regInsert` is `DashMap::insert` (replace),
`regRemove` is `DashMap::remove` (unconditional delete of the key),
`regLookup` is `DashMap::get`. -/

abbrev Registry := List (Uuid × ChanId)

def regLookup (r : Registry) (k : Uuid) : Option ChanId :=
  match r with
  | [] => none
  | (k', v) :: rest => if k' = k then some v else regLookup rest k

def regRemove (r : Registry) (k : Uuid) : Registry :=
  match r with
  | [] => []
  | (k', v) :: rest => if k' = k then regRemove rest k else (k', v) :: regRemove rest k

def regInsert (r : Registry) (k : Uuid) (v : ChanId) : Registry :=
  (k, v) :: regRemove r k

theorem regLookup_regRemove_self (r : Registry) (k : Uuid) :
    regLookup (regRemove r k) k = none := by
  induction r with
  | nil => rfl
  | cons p rest ih =>
    obtain ⟨k', v⟩ := p
    by_cases h : k' = k <;> simp [regRemove, regLookup, h, ih]

theorem regLookup_regRemove_ne (r : Registry) (k u : Uuid) (h : u ≠ k) :
    regLookup (regRemove r k) u = regLookup r u := by
  induction r with
  | nil => rfl
  | cons p rest ih =>
    obtain ⟨k', v⟩ := p
    by_cases hk : k' = k
    · subst hk
      simp [regRemove, regLookup, Ne.symm h, ih]
    · by_cases hu : k' = u <;> simp [regRemove, regLookup, hk, hu, h, ih]

theorem regLookup_regInsert_self (r : Registry) (k : Uuid) (v : ChanId) :
    regLookup (regInsert r k v) k = some v := by
  simp [regInsert, regLookup]

theorem regLookup_regInsert_ne (r : Registry) (k u : Uuid) (v : ChanId) (h : u ≠ k) :
    regLookup (regInsert r k v) u = regLookup r u := by
  simp [regInsert, regLookup, Ne.symm h, regLookup_regRemove_ne r k u h]

/-! ## Token verification (external jsonwebtoken crate, modelled)

`Claims { sub: Uuid, exp: usize }` is the struct of src/main.rs lines 29-33.
A token is modelled as the string `sub.exp.sig`; `signClaims` stands in for
HMAC-SHA256 with the shared secret, and `verifyToken` models
`jsonwebtoken::decode::<Claims>(&token, &key, &Validation::default())`:
it fails on malformed structure (claims that do not parse), on a signature
that does not match the secret, and on an expired token. -/

structure Claims where
  sub : Uuid
  exp : Nat
deriving DecidableEq

/-- Split a character list at every occurrence of `sep`. -/
def splitOnChar (sep : Char) : List Char → List (List Char)
  | [] => [[]]
  | c :: rest =>
    match splitOnChar sep rest with
    | [] => if c = sep then [[], []] else [[c]]
    | group :: groups =>
      if c = sep then [] :: group :: groups else (c :: group) :: groups

/-- Parse a nonempty all-digit character list as a decimal number. -/
def parseNat? (cs : List Char) : Option Nat :=
  match cs with
  | [] => none
  | _ =>
    cs.foldl
      (fun acc c =>
        match acc with
        | none => none
        | some n => if '0' ≤ c ∧ c ≤ '9' then some (n * 10 + (c.toNat - '0'.toNat)) else none)
      (some 0)

/-- Model of the keyed signature (HMAC-SHA256 in the real system). -/
def signClaims (secret : String) (sub : Uuid) (exp : Nat) : String :=
  secret ++ "/" ++ sub ++ "/" ++ Nat.repr exp

/-- Model of `jsonwebtoken::decode::<Claims>` with `Validation::default()`:
structure check, signature check against the shared secret, expiry check
against the current time `now`. -/
def verifyToken (secret : String) (now : Nat) (token : String) : Option Claims :=
  match splitOnChar '.' token.data with
  | [subCs, expCs, sigCs] =>
    match parseNat? expCs with
    | some exp =>
      if String.mk sigCs = signClaims secret (String.mk subCs) exp ∧ now < exp then
        some ⟨String.mk subCs, exp⟩
      else none
    | none => none
  | _ => none

/-! ## Connection session (src/main.rs `handle_socket`) -/

/-- Per-process configuration and ambient time: the shared JWT secret
(`state.jwt_secret`) and the instant at which token expiry is checked. -/
structure Env where
  secret : String
  now : Nat

/-- One step of the `match signal { .. }` body (src/main.rs lines 85-132).
Arguments mirror the Rust locals: `peers` is the shared registry, `tx` this
session's own channel, `auth` the `authenticated_user_id` variable.  Returns
the new `authenticated_user_id`, the new registry, and the list of
(channel, message) sends performed, in order. -/
def handleMessage (env : Env) (peers : Registry) (tx : ChanId) (auth : Option Uuid) :
    KodaSignal → Option Uuid × Registry × List (ChanId × KodaSignal)
  | .identify token =>
    match verifyToken env.secret env.now token with
    | some claims =>
        (some claims.sub, regInsert peers claims.sub tx,
         [(tx, .authenticated claims.sub)])
    | none => (auth, peers, [])
  | .signal targetId _ data =>
    match auth with
    | some senderId =>
      match regLookup peers targetId with
      | some peerTx => (auth, peers, [(peerTx, .signal targetId (some senderId) data)])
      | none => (auth, peers, [(tx, .peerOffline targetId)])
    | none => (auth, peers, [(tx, .error "IDENTIFY_REQUIRED")])
  | .authenticated _ => (auth, peers, [])
  | .peerOffline _ => (auth, peers, [])
  | .error _ => (auth, peers, [])

/-- One inbound websocket frame, as received by the loop at line 82:
a text frame carrying parsed JSON, a text frame whose contents are not JSON
at all, or any non-text frame. -/
inductive Frame where
  | text (j : Json)
  | badJsonText
  | nonText

/-- One iteration of the receive loop (src/main.rs lines 82-140): only text
frames are examined; a frame that fails `serde_json::from_str::<KodaSignal>`
(not JSON, or JSON not matching a variant) gets the MALFORMATTED_JSON error. -/
def handleFrame (env : Env) (peers : Registry) (tx : ChanId) (auth : Option Uuid) :
    Frame → Option Uuid × Registry × List (ChanId × KodaSignal)
  | .text j =>
    match decode j with
    | some signal => handleMessage env peers tx auth signal
    | none => (auth, peers, [(tx, .error "MALFORMATTED_JSON")])
  | .badJsonText => (auth, peers, [(tx, .error "MALFORMATTED_JSON")])
  | .nonText => (auth, peers, [])

/-- State threaded through the receive loop: `authenticated_user_id`, the
shared registry, and the cumulative log of channel sends. -/
structure LoopState where
  auth : Option Uuid
  peers : Registry
  log : List (ChanId × KodaSignal)

/-- The receive loop over the frames delivered before the connection closed. -/
def runFrames (env : Env) (tx : ChanId) : LoopState → List Frame → LoopState
  | st, [] => st
  | st, f :: rest =>
    match handleFrame env st.peers tx st.auth f with
    | (auth', peers', outs) => runFrames env tx ⟨auth', peers', st.log ++ outs⟩ rest

/-- The cleanup at src/main.rs lines 143-147: if the session ever identified,
unconditionally remove its last identity's registry entry
(`state.peers.remove(&uid)`). -/
def teardown (peers : Registry) : Option Uuid → Registry
  | some uid => regRemove peers uid
  | none => peers

/-- A whole session: run the receive loop from unauthenticated over the given
frames, then perform the disconnect cleanup.  Returns the final registry and
the send log. -/
def handleSocket (env : Env) (peers : Registry) (tx : ChanId) (frames : List Frame) :
    Registry × List (ChanId × KodaSignal) :=
  let st := runFrames env tx ⟨none, peers, []⟩ frames
  (teardown st.peers st.auth, st.log)

/-! ## Claims -/

/-- C8: codec round-trip — for every `KodaSignal` value, decoding the JSON
produced by encoding it yields the same message, field by field (for `Signal`
this includes the `target_id`, the optional `sender_id`, and the opaque `data`
payload). -/
theorem decode_encode (m : KodaSignal) : decode (encode m) = some m := by
  cases m with
  | signal targetId senderId data => cases senderId <;> rfl
  | _ => rfl

/-- C2: a `Signal{target}` processed while authenticated as `senderId`, when
the target has a registry entry, enqueues exactly
`Signal{target_id, sender_id = Some senderId, data}` on the target's channel,
with `data` preserved and the client-supplied `sender_id` (`clientSender`)
ignored in all cases; session state and registry are unchanged. -/
theorem signal_authenticated_delivers (env : Env) (peers : Registry)
    (tx peerTx : ChanId) (senderId targetId : Uuid) (clientSender : Option Uuid)
    (data : Json) (h : regLookup peers targetId = some peerTx) :
    handleMessage env peers tx (some senderId) (.signal targetId clientSender data)
      = (some senderId, peers, [(peerTx, .signal targetId (some senderId) data)]) := by
  simp [handleMessage, h]

theorem signal_authenticated_delivers_witness :
    regLookup [("bob", 7)] "bob" = some 7 ∧
    handleMessage ⟨"sec", 0⟩ [("bob", 7)] 1 (some "alice")
        (.signal "bob" (some "mallory") (.str "sdp"))
      = (some "alice", [("bob", 7)], [(7, .signal "bob" (some "alice") (.str "sdp"))]) :=
  ⟨by decide,
   signal_authenticated_delivers ⟨"sec", 0⟩ [("bob", 7)] 1 7 "alice" "bob"
     (some "mallory") (.str "sdp") (by decide)⟩

/-- C3: an `Identify{token}` processed while unauthenticated whose token
verifies (valid signature, unexpired) with claims `{sub, exp}` makes the
session `Authenticated(sub)`, enqueues exactly one `Authenticated{sub}` on the
sender's own channel, and leaves the registry mapping `sub` to this session's
channel. -/
theorem identify_valid_authenticates (env : Env) (peers : Registry) (tx : ChanId)
    (token : String) (c : Claims)
    (h : verifyToken env.secret env.now token = some c) :
    handleMessage env peers tx none (.identify token)
      = (some c.sub, regInsert peers c.sub tx, [(tx, .authenticated c.sub)])
    ∧ regLookup (regInsert peers c.sub tx) c.sub = some tx := by
  exact ⟨by simp [handleMessage, h], regLookup_regInsert_self peers c.sub tx⟩

theorem identify_valid_authenticates_witness :
    verifyToken "sec" 50 "alice.100.sec/alice/100" = some ⟨"alice", 100⟩
    ∧ (handleMessage ⟨"sec", 50⟩ [] 1 none (.identify "alice.100.sec/alice/100")
        = (some "alice", regInsert [] "alice" 1, [(1, .authenticated "alice")])
      ∧ regLookup (regInsert [] "alice" 1) "alice" = some 1) :=
  ⟨by decide,
   identify_valid_authenticates ⟨"sec", 50⟩ [] 1 "alice.100.sec/alice/100"
     ⟨"alice", 100⟩ (by decide)⟩

/-- C4: a `Signal` processed while unauthenticated enqueues exactly one
`Error{"IDENTIFY_REQUIRED"}` on the sender's own channel and delivers nothing
to any other connection; the result holds for every registry content and
returns the registry unchanged (the code reaches the error arm before any
registry lookup). -/
theorem signal_unauthenticated_rejected (env : Env) (peers : Registry)
    (tx : ChanId) (targetId : Uuid) (clientSender : Option Uuid) (data : Json) :
    handleMessage env peers tx none (.signal targetId clientSender data)
      = (none, peers, [(tx, .error "IDENTIFY_REQUIRED")]) := rfl

/-- C5: an `Identify{token}` whose token fails verification (expired,
mis-signed, or malformed claims) leaves the session state unchanged (whatever
it was), creates or modifies no registry entry, and emits no message at
all — in particular no `Authenticated`. -/
theorem identify_invalid_no_change (env : Env) (peers : Registry) (tx : ChanId)
    (auth : Option Uuid) (token : String)
    (h : verifyToken env.secret env.now token = none) :
    handleMessage env peers tx auth (.identify token) = (auth, peers, []) := by
  simp [handleMessage, h]

theorem identify_invalid_no_change_witness :
    verifyToken "sec" 50 "alice.100.badsig" = none
    ∧ handleMessage ⟨"sec", 50⟩ [("bob", 7)] 1 none (.identify "alice.100.badsig")
        = (none, [("bob", 7)], []) :=
  ⟨by decide,
   identify_invalid_no_change ⟨"sec", 50⟩ [("bob", 7)] 1 none "alice.100.badsig"
     (by decide)⟩

/-- C6: a `Signal{target}` processed while authenticated, when the target has
no registry entry at lookup time, enqueues exactly one `PeerOffline{target}`
on the sender's own channel and nothing on any other connection's channel. -/
theorem signal_target_offline (env : Env) (peers : Registry) (tx : ChanId)
    (senderId targetId : Uuid) (clientSender : Option Uuid) (data : Json)
    (h : regLookup peers targetId = none) :
    handleMessage env peers tx (some senderId) (.signal targetId clientSender data)
      = (some senderId, peers, [(tx, .peerOffline targetId)]) := by
  simp [handleMessage, h]

theorem signal_target_offline_witness :
    regLookup [("carol", 9)] "bob" = none
    ∧ handleMessage ⟨"sec", 0⟩ [("carol", 9)] 1 (some "alice")
        (.signal "bob" none (.str "sdp"))
      = (some "alice", [("carol", 9)], [(1, .peerOffline "bob")]) :=
  ⟨by decide,
   signal_target_offline ⟨"sec", 0⟩ [("carol", 9)] 1 "alice" "bob" none (.str "sdp")
     (by decide)⟩

/-- C9: an inbound text frame that fails to decode as a protocol message
(whether unparseable text or JSON not matching a variant) enqueues exactly one
`Error{"MALFORMATTED_JSON"}` on the sender's own channel, leaves the session
state and the registry unchanged, and the receive loop goes on to process the
remaining frames from that unchanged state. -/
theorem malformed_frame_error_continue (env : Env) (tx : ChanId) (st : LoopState)
    (j : Json) (rest : List Frame) (h : decode j = none) :
    handleFrame env st.peers tx st.auth (.text j)
      = (st.auth, st.peers, [(tx, .error "MALFORMATTED_JSON")])
    ∧ handleFrame env st.peers tx st.auth .badJsonText
      = (st.auth, st.peers, [(tx, .error "MALFORMATTED_JSON")])
    ∧ runFrames env tx st (.text j :: rest)
      = runFrames env tx ⟨st.auth, st.peers, st.log ++ [(tx, .error "MALFORMATTED_JSON")]⟩ rest := by
  refine ⟨by simp [handleFrame, h], rfl, ?_⟩
  simp [runFrames, handleFrame, h]

theorem malformed_frame_error_continue_witness :
    decode (.str "zrh") = none
    ∧ (handleFrame ⟨"sec", 50⟩ [("bob", 7)] 1 (some "alice") (.text (.str "zrh"))
        = (some "alice", [("bob", 7)], [(1, .error "MALFORMATTED_JSON")])
      ∧ handleFrame ⟨"sec", 50⟩ [("bob", 7)] 1 (some "alice") .badJsonText
        = (some "alice", [("bob", 7)], [(1, .error "MALFORMATTED_JSON")])
      ∧ runFrames ⟨"sec", 50⟩ 1 ⟨some "alice", [("bob", 7)], []⟩ [.text (.str "zrh")]
        = runFrames ⟨"sec", 50⟩ 1
            ⟨some "alice", [("bob", 7)], [] ++ [(1, .error "MALFORMATTED_JSON")]⟩ []) :=
  ⟨rfl,
   malformed_frame_error_continue ⟨"sec", 50⟩ 1 ⟨some "alice", [("bob", 7)], []⟩
     (.str "zrh") [] rfl⟩

/-- C1 counterexample: the claim asserts the teardown removal is a
compare-and-remove (the entry for the identity survives whenever the stored
channel differs from the disconnecting session's own channel).  The code's
cleanup is `state.peers.remove(&uid)`, an unconditional delete: with the
registry mapping "alice" to channel 2 (a newer session) and a disconnecting
session whose own channel is 1, the entry is deleted anyway. -/
theorem teardown_compare_and_remove_cex :
    ¬ (∀ (peers : Registry) (uid : Uuid) (tx c : ChanId),
        regLookup peers uid = some c → c ≠ tx →
        regLookup (teardown peers (some uid)) uid = some c) := by
  intro h
  exact absurd (h [("alice", 2)] "alice" 1 2 (by decide) (by decide)) (by decide)

/-- C1 amended: the registry removal at connection teardown is unconditional —
for a disconnecting session that last identified as `uid`, the entry for `uid`
is removed regardless of which channel is currently stored there (so a
disconnecting old session does delete a newer session's re-registered entry),
while entries for every other identity are untouched. -/
theorem teardown_unconditional_remove (peers : Registry) (uid : Uuid) :
    regLookup (teardown peers (some uid)) uid = none
    ∧ ∀ u, u ≠ uid → regLookup (teardown peers (some uid)) u = regLookup peers u :=
  ⟨regLookup_regRemove_self peers uid, fun u hu => regLookup_regRemove_ne peers uid u hu⟩

theorem teardown_unconditional_remove_witness :
    regLookup (teardown [("alice", 2), ("bob", 3)] (some "alice")) "alice" = none
    ∧ regLookup (teardown [("alice", 2), ("bob", 3)] (some "alice")) "bob"
        = regLookup [("alice", 2), ("bob", 3)] "bob" :=
  ⟨(teardown_unconditional_remove [("alice", 2), ("bob", 3)] "alice").1,
   (teardown_unconditional_remove [("alice", 2), ("bob", 3)] "alice").2 "bob" (by decide)⟩

/-- C7 counterexample: the claim asserts that after teardown no registry entry
for any identity the session registered still points at its channel.  A
session on channel 1 that identifies first as "alice" and then as "bob" with
valid tokens registers both; the cleanup removes only the last identity
("bob"), so the "alice" entry still points at channel 1 after teardown. -/
theorem teardown_removes_all_identities_cex :
    ¬ (∀ (env : Env) (peers : Registry) (tx : ChanId) (frames : List Frame),
        (∀ u, regLookup peers u ≠ some tx) →
        ∀ u, regLookup (handleSocket env peers tx frames).1 u ≠ some tx) := by
  intro h
  exact h ⟨"sec", 50⟩ [] 1
    [.text (encode (.identify "alice.100.sec/alice/100")),
     .text (encode (.identify "bob.100.sec/bob/100"))]
    (fun u => by simp [regLookup]) "alice" (by decide)

/-- C7 amended: the teardown cleanup removes exactly the registry entry for
the identity the session most recently authenticated as (the final value of
`authenticated_user_id`); entries registered under identities the session held
earlier may remain in the registry, still pointing at its channel. -/
theorem teardown_removes_last_identity (env : Env) (peers : Registry)
    (tx : ChanId) (frames : List Frame) (uid : Uuid)
    (h : (runFrames env tx ⟨none, peers, []⟩ frames).auth = some uid) :
    regLookup (handleSocket env peers tx frames).1 uid = none := by
  show regLookup
    (teardown (runFrames env tx ⟨none, peers, []⟩ frames).peers
              (runFrames env tx ⟨none, peers, []⟩ frames).auth) uid = none
  rw [h]
  exact regLookup_regRemove_self _ uid

theorem teardown_removes_last_identity_witness :
    (runFrames ⟨"sec", 50⟩ 1 ⟨none, [], []⟩
       [.text (encode (.identify "alice.100.sec/alice/100")),
        .text (encode (.identify "bob.100.sec/bob/100"))]).auth = some "bob"
    ∧ regLookup (handleSocket ⟨"sec", 50⟩ [] 1
       [.text (encode (.identify "alice.100.sec/alice/100")),
        .text (encode (.identify "bob.100.sec/bob/100"))]).1 "bob" = none :=
  ⟨by decide,
   teardown_removes_last_identity ⟨"sec", 50⟩ [] 1
     [.text (encode (.identify "alice.100.sec/alice/100")),
      .text (encode (.identify "bob.100.sec/bob/100"))] "bob" (by decide)⟩

/-- C10: an `Identify` with a valid token processed while already
authenticated is not ignored — the session's identity is re-assigned to the
new token's subject, a registry entry for the new subject is inserted, every
other identity's entry (in particular the previously held identity's) is left
exactly as it was, and the teardown cleanup performed afterwards removes only
the most recently assigned identity's entry. -/
theorem identify_reassigns_identity (env : Env) (peers : Registry) (tx : ChanId)
    (auth : Option Uuid) (token : String) (c : Claims)
    (h : verifyToken env.secret env.now token = some c) :
    handleMessage env peers tx auth (.identify token)
      = (some c.sub, regInsert peers c.sub tx, [(tx, .authenticated c.sub)])
    ∧ (∀ u, u ≠ c.sub → regLookup (regInsert peers c.sub tx) u = regLookup peers u)
    ∧ regLookup (teardown (regInsert peers c.sub tx) (some c.sub)) c.sub = none
    ∧ (∀ u, u ≠ c.sub →
        regLookup (teardown (regInsert peers c.sub tx) (some c.sub)) u
          = regLookup peers u) := by
  refine ⟨by simp [handleMessage, h],
    fun u hu => regLookup_regInsert_ne peers c.sub u tx hu,
    regLookup_regRemove_self _ _,
    fun u hu => ?_⟩
  show regLookup (regRemove (regInsert peers c.sub tx) c.sub) u = regLookup peers u
  rw [regLookup_regRemove_ne _ _ _ hu]
  exact regLookup_regInsert_ne peers c.sub u tx hu

theorem identify_reassigns_identity_witness :
    verifyToken "sec" 50 "bob.100.sec/bob/100" = some ⟨"bob", 100⟩
    ∧ handleMessage ⟨"sec", 50⟩ [("alice", 1)] 1 (some "alice")
        (.identify "bob.100.sec/bob/100")
      = (some "bob", regInsert [("alice", 1)] "bob" 1, [(1, .authenticated "bob")])
    ∧ regLookup (regInsert [("alice", 1)] "bob" 1) "alice"
        = regLookup [("alice", 1)] "alice"
    ∧ regLookup (teardown (regInsert [("alice", 1)] "bob" 1) (some "bob")) "bob" = none
    ∧ regLookup (teardown (regInsert [("alice", 1)] "bob" 1) (some "bob")) "alice"
        = regLookup [("alice", 1)] "alice" :=
  have h := identify_reassigns_identity ⟨"sec", 50⟩ [("alice", 1)] 1 (some "alice")
    "bob.100.sec/bob/100" ⟨"bob", 100⟩ (by decide)
  ⟨by decide, h.1, h.2.1 "alice" (by decide), h.2.2.1, h.2.2.2 "alice" (by decide)⟩
